import Mathlib

/-!
# Development-environment service wiring of dagger-harbor

A verification development over `.dagger/consts.go` and `.dagger/devServices.go`.

* Section 1 embeds the version constants and the derived scanner URL.
* Section 2 embeds the container values the service builders manipulate.
* Section 3 embeds the eight service builders, call by call in source order.
* Section 4 states and proves the properties.

Go strings are embedded as Lean strings; the only prefix ever trimmed is the
one-byte ASCII string "v", on which byte-wise and character-wise prefixes agree.
-/

namespace DaggerHarbor

/-! ## 1. Constants (`consts.go`) -/

/-- Go `strings.HasPrefix`: `s` begins with `pre`. -/
def HasPrefix (s pre : String) : Bool :=
  pre.data.isPrefixOf s.data

/-- Go `strings.TrimPrefix`: `s` without the leading `pre`; `s` itself when `s`
does not begin with `pre`. -/
def TrimPrefix (s pre : String) : String :=
  if HasPrefix s pre then ⟨s.data.drop pre.data.length⟩ else s

def GOLANGCILINT_VERSION : String := "v1.61.0"
def GO_VERSION : String := "1.23.2"
def SYFT_VERSION : String := "v1.9.0"
def GORELEASER_VERSION : String := "v2.3.2"
def REGISTRY_SRC_TAG : String := "v2.8.3"
def DISTRIBUTION_SRC : String := "https://github.com/distribution/distribution.git"
def NPM_REGISTRY : String := "https://registry.npmjs.org"
def TRIVYVERSION : String := "v0.56.1"
def TRIVYADAPTERVERSION : String := "v0.32.0-rc.1"
def DEV_PLATFORM : String := "linux/amd64"
def DEV_VERSION : String := "dev"
def DEBUG : Bool := true
def DEBUG_PORT : String := "4001"

def TRIVY_VERSION_NO_PREFIX : String := TrimPrefix TRIVYVERSION "v"

def TRIVY_DOWNLOAD_URL : String :=
  "https://github.com/aquasecurity/trivy/releases/download/" ++ TRIVYVERSION ++ "/trivy_"
    ++ TRIVY_VERSION_NO_PREFIX ++ "_Linux-64bit.tar.gz"

/-- The initialiser of `TRIVY_VERSION_NO_PREFIX` with the version constant
replaced by an arbitrary string. -/
def trivyVersionNoPrefix (version : String) : String :=
  TrimPrefix version "v"

/-- The initialiser of `TRIVY_DOWNLOAD_URL` with the version constant replaced
by an arbitrary string. -/
def trivyDownloadUrl (version : String) : String :=
  "https://github.com/aquasecurity/trivy/releases/download/" ++ version ++ "/trivy_"
    ++ trivyVersionNoPrefix version ++ "_Linux-64bit.tar.gz"

def TRIVY_ADAPTER_DOWNLOAD_URL : String :=
  "https://github.com/goharbor/harbor-scanner-trivy/archive/refs/tags/"
    ++ TRIVYADAPTERVERSION ++ ".tar.gz"

/-! ## 2. Containers and services

The builders of `devServices.go` are chains of calls on container values of
the orchestration SDK. A container value is embedded as the record of what such
a chain has declared so far; every call returns an updated record. -/

/-- A lazy handle on a directory: the root of a named tree, or the directory at
a path below another handle. -/
inductive Directory where
  | tree (name : String)
  | sub (parent : Directory) (path : String)
  deriving DecidableEq, Repr

/-- A lazy handle on the file at `path` below the directory `parent`. -/
structure File where
  parent : Directory
  path : String
  deriving DecidableEq, Repr

/-- What a mount attaches: a file handle or a directory handle. -/
inductive MountSource where
  | file (source : File)
  | directory (source : Directory)
  deriving DecidableEq, Repr

/-- One mount: the container path and what is attached there. -/
structure Mount where
  path : String
  source : MountSource
  deriving DecidableEq, Repr

/-- One exposed port with the option it was declared with. -/
structure Port where
  port : Nat
  skipHealthcheck : Bool
  deriving DecidableEq, Repr

/-- The option record of `WithExposedPort`. -/
structure ContainerWithExposedPortOpts where
  ExperimentalSkipHealthcheck : Bool
  deriving DecidableEq, Repr

/-- The option record of `AsService`. -/
structure ContainerAsServiceOpts where
  InsecureRootCapabilities : Bool
  deriving DecidableEq, Repr

/-- A container value: mounts in the order they were attached (a later mount at
the same path shadows an earlier one), exposed ports, environment settings,
entrypoint tokens and the commands run so far. -/
structure Container where
  mounts : List Mount
  ports : List Port
  envVariables : List (String × String)
  entrypoint : List String
  execs : List (List String)
  deriving DecidableEq, Repr

/-- A startable service: the container it runs and whether it is created with
elevated root capabilities. -/
structure Service where
  container : Container
  insecureRootCapabilities : Bool
  deriving DecidableEq, Repr

/-- The orchestration client `dag`: the registry it pulls images from, as the
container configuration found at each image address. -/
structure Client where
  pull : String → Container

/-- The module object `m`: its source tree, and its image-build helper
`BuildImage(ctx, platform, name)`, whose definition is outside these two files
and is therefore a parameter. -/
structure Harbor where
  Source : Directory
  BuildImage : String → String → Container

/-- Modelled from the spec: the SDK call `Directory.File` (not in these files),
"resolve component-specific configuration file paths from the source tree". -/
def Directory.File (d : Directory) (path : String) : File :=
  ⟨d, path⟩

/-- Modelled from the spec: the SDK call `Directory.Directory` (not in these
files), the handle on a sub-directory of the source tree. -/
def Directory.Directory (d : DaggerHarbor.Directory) (path : String) : DaggerHarbor.Directory :=
  .sub d path

/-- Modelled from the spec: the SDK call `dag.Container()` (not in these
files), the container on which nothing has been declared yet. -/
def Client.Container (_dag : Client) : Container :=
  ⟨[], [], [], [], []⟩

/-- Modelled from the spec: the SDK call `Container.From` (not in these files),
"image-from-registry": the container is initialised from the image pulled at
`address`. -/
def Container.From (_c : Container) (dag : Client) (address : String) : Container :=
  dag.pull address

/-- Modelled from the spec: the SDK call `WithMountedFile` (not in these
files), "attach configuration files at fixed mount points". -/
def Container.WithMountedFile (c : Container) (path : String) (source : File) : Container :=
  { c with mounts := c.mounts ++ [⟨path, .file source⟩] }

/-- Modelled from the spec: the SDK call `WithMountedDirectory` (not in these
files), "attach configuration directories at fixed mount points". -/
def Container.WithMountedDirectory (c : Container) (path : String) (source : Directory) :
    Container :=
  { c with mounts := c.mounts ++ [⟨path, .directory source⟩] }

/-- Modelled from the spec: the SDK call `WithExec` (not in these files); the
command is recorded. -/
def Container.WithExec (c : Container) (args : List String) : Container :=
  { c with execs := c.execs ++ [args] }

/-- Modelled from the spec: the SDK call `WithExposedPort` (not in these
files), "declare the ports the component listens on": `port` joins the exposed
ports, declared with the options of this call (variadic in the SDK). -/
def Container.WithExposedPort (c : Container) (port : Nat)
    (opts : List ContainerWithExposedPortOpts) : Container :=
  { c with ports := c.ports.filter (fun p => p.port != port)
      ++ [⟨port, opts.any (fun o => o.ExperimentalSkipHealthcheck)⟩] }

/-- Modelled from the spec: the SDK call `WithoutExposedPort` (not in these
files), "explicitly withhold ports that should not be exposed": `port` leaves
the exposed ports. -/
def Container.WithoutExposedPort (c : Container) (port : Nat) : Container :=
  { c with ports := c.ports.filter (fun p => p.port != port) }

/-- Modelled from the spec: the SDK call `WithEnvVariable` (not in these
files); the setting `name` takes the value `value`. -/
def Container.WithEnvVariable (c : Container) (name value : String) : Container :=
  { c with envVariables := c.envVariables.filter (fun e => e.1 != name) ++ [(name, value)] }

/-- Modelled from the spec: the SDK call `WithEntrypoint` (not in these files),
"set the process entrypoint". -/
def Container.WithEntrypoint (c : Container) (args : List String) : Container :=
  { c with entrypoint := args }

/-- Modelled from the spec: the SDK call `AsService` (not in these files),
"start-as-service": the handle on the service that runs the container, with the
options of this call (variadic in the SDK). -/
def Container.AsService (c : Container) (opts : List ContainerAsServiceOpts) : Service :=
  ⟨c, opts.any (fun o => o.InsecureRootCapabilities)⟩

/-! ### Observations on containers -/

/-- The exposed-port set of a container. -/
def Container.exposedPorts (c : Container) : Finset Nat :=
  (c.ports.map Port.port).toFinset

/-- The value of the environment setting `name`, if set. -/
def Container.envVariable (c : Container) (name : String) : Option String :=
  (c.envVariables.reverse.find? (fun e => e.1 == name)).map Prod.snd

/-- What is mounted at the container path `path`: the last mount attached
there, if any. -/
def Container.mountAt (c : Container) (path : String) : Option MountSource :=
  (c.mounts.reverse.find? (fun mt => mt.path == path)).map Mount.source

/-! ## 3. The service builders (`devServices.go`) -/

/-- Builder of the proxy service (lines 8-20). The context argument, here and
in the other builders, only carries cancellation into the SDK and is left out. -/
def NginxService (m : Harbor) : Service :=
  let nginxConfig := m.Source.File ".dagger/config/proxy/nginx.conf"
  let nginxSrv := (m.BuildImage DEV_PLATFORM "nginx")
    |>.WithMountedFile "/etc/nginx/nginx.conf" nginxConfig
    |>.WithExposedPort 8080 []
    |>.WithExposedPort 4001 []
    |>.WithoutExposedPort 8443
    |>.AsService []
  nginxSrv

/-- Builder of the portal service (lines 23-33). -/
def PortalService (m : Harbor) : Service :=
  let nginxConfig := m.Source.File ".dagger/config/proxy/nginx.conf"
  let portal := (m.BuildImage DEV_PLATFORM "portal")
    |>.WithMountedFile "/etc/nginx/nginx.conf" nginxConfig
    |>.WithExposedPort 8080 []
    |>.WithoutExposedPort 8443
    |>.AsService []
  portal

/-- Builder of the job service (lines 35-50). -/
def JobService (m : Harbor) : Service :=
  let jobSrvConfig := m.Source.File ".dagger/config/jobservice/config.yml"
  let envFile := m.Source.File ".dagger/config/jobservice/env"
  let run_script := m.Source.File ".dagger/config/run_env.sh"
  let jobSrv := (m.BuildImage DEV_PLATFORM "jobservice")
    |>.WithMountedFile "/etc/jobservice/config.yml" jobSrvConfig
    |>.WithMountedDirectory "/var/log/jobs" (m.Source.Directory ".dagger/config/jobservice")
    |>.WithMountedFile "/envFile" envFile
    |>.WithMountedFile "/run_script" run_script
    |>.WithExec ["chmod", "+x", "/run_script"]
    |>.WithExposedPort 8080 []
    |>.WithEntrypoint ["/run_script", "/jobservice -c /etc/jobservice/config.yml"]
    |>.AsService []
  jobSrv

/-- Builder of the core service (lines 52-78). -/
def CoreService (m : Harbor) : Service :=
  let coreConfig := m.Source.File ".dagger/config/core/app.conf"
  let envFile := m.Source.File ".dagger/config/core/env"
  let run_script := m.Source.File ".dagger/config/run_debug.sh"
  let core := (m.BuildImage DEV_PLATFORM "core")
    |>.WithMountedFile "/etc/core/app.conf" coreConfig
    |>.WithMountedFile "/envFile" envFile
    |>.WithMountedFile "/run_script" run_script
    |>.WithExposedPort 8080 [{ ExperimentalSkipHealthcheck := true }]
    |>.WithExposedPort 4001 [{ ExperimentalSkipHealthcheck := true }]
    |>.WithEntrypoint ["/run_script", "/core", "4001"]
    |>.AsService [{ InsecureRootCapabilities := true }]
  core

/-- Builder of the registry-control service (lines 80-95). -/
def RegistryCtlService (m : Harbor) : Service :=
  let regConfigDir := m.Source.Directory ".dagger/config/registry"
  let regCtlConfig := m.Source.File ".dagger/config/registryctl/config.yml"
  let envFile := m.Source.File ".dagger/config/jobservice/env"
  let run_script := m.Source.File ".dagger/config/run_env.sh"
  let regCtl := (m.BuildImage DEV_PLATFORM "registryctl")
    |>.WithMountedDirectory "/etc/registry" regConfigDir
    |>.WithMountedFile "/etc/registryctl/config.yml" regCtlConfig
    |>.WithMountedFile "/envFile" envFile
    |>.WithMountedFile "/run_script" run_script
    |>.WithEntrypoint ["/run_script", "/registryctl -c /etc/registryctl/config.yml"]
    |>.AsService []
  regCtl

/-- Builder of the database service (lines 97-103). The package-level client
`dag` is an explicit argument. -/
def PostgresService (dag : Client) (_m : Harbor) : Service :=
  let postgres := (dag.Container.From dag "goharbor/harbor-db:v2.12.2")
    |>.WithExposedPort 5432 []
    |>.WithEnvVariable "POSTGRES_PASSWORD" "root123"
    |>.AsService []
  postgres

/-- Builder of the cache service (lines 105-110). -/
def RedisService (dag : Client) (_m : Harbor) : Service :=
  (dag.Container.From dag "goharbor/redis-photon:v2.12.2")
    |>.WithExposedPort 6379 []
    |>.AsService []

/-- Builder of the registry service (lines 112-123). -/
def RegistryService (m : Harbor) : Service :=
  let regConfigDir := m.Source.Directory ".dagger/config/registry"
  let reg := (m.BuildImage DEV_PLATFORM "registry")
    |>.WithMountedDirectory "/etc/registry" regConfigDir
    |>.WithExposedPort 5000 []
    |>.WithoutExposedPort 5001
    |>.WithoutExposedPort 5443
    |>.AsService []
  reg

/-! ### Further observations and sample inputs -/

/-- The options with which `port` is declared in a container: one entry per
declaration of that port, `true` when the health check is skipped. -/
def Container.portOptions (c : Container) (port : Nat) : List Bool :=
  (c.ports.filter (fun p => p.port == port)).map Port.skipHealthcheck

/-- A version string of the shape `vX.Y.Z`: the letter v followed by a decimal
digit. -/
def isVersionShaped (s : String) : Bool :=
  match s.data with
  | 'v' :: d :: _ => d.isDigit
  | _ => false

/-- A container that has nothing but the given exposed ports (none of them
with the health check skipped). -/
def imageExposing (ports : List Nat) : Container :=
  ⟨[], ports.map (fun p => ⟨p, false⟩), [], [], []⟩

/-- A module whose built images expose the ports the builders withhold next to
the ones they declare. -/
def devHarbor : Harbor where
  Source := .tree "harbor"
  BuildImage := fun _ name =>
    if name = "nginx" ∨ name = "portal" then imageExposing [8080, 8443]
    else if name = "registry" then imageExposing [5000, 5001, 5443]
    else imageExposing []

/-- A registry whose database and cache images expose their service port. -/
def devClient : Client where
  pull := fun address =>
    if address = "goharbor/harbor-db:v2.12.2" then imageExposing [5432]
    else if address = "goharbor/redis-photon:v2.12.2" then imageExposing [6379]
    else imageExposing []

/-- A module whose built images all expose the extra port 9999. -/
def extraPortHarbor : Harbor where
  Source := .tree "harbor"
  BuildImage := fun _ _ => imageExposing [9999]

/-- A registry whose images bring no exposed port of their own. -/
def plainClient : Client where
  pull := fun _ => imageExposing []

/-- A module whose built images already carry two port declarations: 9000 with
the health check skipped and 9001 without. -/
def declaredPortsHarbor : Harbor where
  Source := .tree "harbor"
  BuildImage := fun _ _ => ⟨[], [⟨9000, true⟩, ⟨9001, false⟩], [], [], []⟩

/-- A module whose built images already have a file mounted at the path of the
proxy configuration. -/
def overlapHarbor : Harbor where
  Source := .tree "harbor"
  BuildImage := fun _ _ =>
    ⟨[⟨"/etc/nginx/nginx.conf", .file ⟨.tree "image", "nginx.conf"⟩⟩], [], [], [], []⟩

/-- A module whose built images already have a directory mounted at a path
that no builder uses. -/
def cacheHarbor : Harbor where
  Source := .tree "harbor"
  BuildImage := fun _ _ =>
    ⟨[⟨"/go/pkg/mod", .directory (.tree "cache")⟩], [], [], [], []⟩

/-- The mounts a service carries on top of those of its base image: what the
builder itself attached, in source order. -/
def attachedMounts (base : Container) (s : Service) : List Mount :=
  s.container.mounts.drop base.mounts.length

/-- The container paths at which `source` is found among `mounts`. -/
def mountPathsOf (mounts : List Mount) (source : MountSource) : List String :=
  (mounts.filter (fun mt => mt.source == source)).map Mount.path

/-- The blank-separated words of a command line. -/
def splitWords (cs : List Char) : List (List Char) :=
  (cs.foldr
    (fun ch acc =>
      if ch = ' ' then [] :: acc
      else match acc with
        | [] => [[ch]]
        | w :: ws => (ch :: w) :: ws)
    [[]]).filter (fun w => !w.isEmpty)

/-- The words of an entrypoint: every token split at blanks, as the launch
wrapper hands them to the shell. -/
def commandWords (entrypoint : List String) : List String :=
  entrypoint.flatMap (fun token => (splitWords token.data).map String.mk)

/-- The word that follows the first occurrence of `flag`, if any. -/
def argAfter (flag : String) : List String → Option String
  | a :: b :: rest => if a = flag then some b else argAfter flag (b :: rest)
  | _ => none

/-- The value of a non-empty string of decimal digits. -/
def parseDecimal (s : String) : Option Nat :=
  if s.data.isEmpty then none
  else s.data.foldl
    (fun acc ch => acc.bind (fun n => if ch.isDigit then some (10 * n + (ch.toNat - 48)) else none))
    (some 0)

/-- The eight service builders of `devServices.go`. -/
inductive Builder where
  | nginx | portal | job | core | registryCtl | postgres | redis | registry
  deriving DecidableEq, Repr

/-- The service a builder returns. -/
def Builder.service (dag : Client) (m : Harbor) : Builder → Service
  | .nginx => NginxService m
  | .portal => PortalService m
  | .job => JobService m
  | .core => CoreService m
  | .registryCtl => RegistryCtlService m
  | .postgres => PostgresService dag m
  | .redis => RedisService dag m
  | .registry => RegistryService m

/-- The base image a builder starts from: the first expression of its chain. -/
def Builder.baseImage (dag : Client) (m : Harbor) : Builder → Container
  | .nginx => m.BuildImage DEV_PLATFORM "nginx"
  | .portal => m.BuildImage DEV_PLATFORM "portal"
  | .job => m.BuildImage DEV_PLATFORM "jobservice"
  | .core => m.BuildImage DEV_PLATFORM "core"
  | .registryCtl => m.BuildImage DEV_PLATFORM "registryctl"
  | .postgres => dag.pull "goharbor/harbor-db:v2.12.2"
  | .redis => dag.pull "goharbor/redis-photon:v2.12.2"
  | .registry => m.BuildImage DEV_PLATFORM "registry"

/-- The source-tree handles a builder resolves. Every handle a builder obtains
from `m.Source` is mounted by it, so these are the sources of the mounts it
attaches. -/
def Builder.resolved (dag : Client) (m : Harbor) (b : Builder) : List MountSource :=
  (attachedMounts (b.baseImage dag m) (b.service dag m)).map Mount.source

/-- The path of a handle below the directory `root`, when it is one. -/
def MountSource.pathIn (root : Directory) : MountSource → Option String
  | .file f => if f.parent = root then some f.path else none
  | .directory (.sub parent path) => if parent = root then some path else none
  | .directory (.tree _) => none

/-- The path `path` is the directory `dir` or lies below it. -/
def isUnder (dir path : String) : Bool :=
  path == dir || HasPrefix path (dir ++ "/")

/-- The handle is a path of the tree `root` at or below the directory `dir`. -/
def MountSource.under (root : Directory) (dir : String) (src : MountSource) : Bool :=
  match src.pathIn root with
  | some path => isUnder dir path
  | none => false

/-- The two launch wrapper scripts of the tree `root`. -/
def launchWrappers (root : Directory) : List MountSource :=
  [.file ⟨root, ".dagger/config/run_env.sh"⟩, .file ⟨root, ".dagger/config/run_debug.sh"⟩]

/-- The three configuration paths of the tree `root` that two builders
resolve: the proxy configuration, the job-service environment file and the
registry configuration directory. -/
def sharedSources (root : Directory) : List MountSource :=
  [.file ⟨root, ".dagger/config/proxy/nginx.conf"⟩,
   .file ⟨root, ".dagger/config/jobservice/env"⟩,
   .directory (.sub root ".dagger/config/registry")]

/-! ## 4. Properties -/

theorem HasPrefix_v_append (r : String) : HasPrefix ("v" ++ r) "v" = true := by
  simp [HasPrefix, String.data_append]

theorem TrimPrefix_v_append (r : String) : TrimPrefix ("v" ++ r) "v" = r := by
  simp [TrimPrefix, HasPrefix_v_append, String.data_append]

theorem TrimPrefix_of_not_HasPrefix (s pre : String) (h : HasPrefix s pre = false) :
    TrimPrefix s pre = s := by
  simp [TrimPrefix, h]

/-! ### Ports: how each call acts on the observations -/

@[simp] theorem exposedPorts_WithExposedPort (c : Container) (port : Nat)
    (opts : List ContainerWithExposedPortOpts) :
    (c.WithExposedPort port opts).exposedPorts = insert port c.exposedPorts := by
  ext x
  simp only [Container.exposedPorts, Container.WithExposedPort, List.mem_toFinset, List.mem_map,
    List.mem_append, List.mem_filter, List.mem_singleton, Finset.mem_insert]
  constructor
  · rintro ⟨e, (⟨he, -⟩ | rfl), rfl⟩
    · exact Or.inr ⟨e, he, rfl⟩
    · exact Or.inl rfl
  · rintro (rfl | ⟨e, he, rfl⟩)
    · exact ⟨⟨x, _⟩, Or.inr rfl, rfl⟩
    · by_cases hp : e.port = port
      · exact ⟨⟨port, _⟩, Or.inr rfl, hp.symm⟩
      · exact ⟨e, Or.inl ⟨he, by simpa using hp⟩, rfl⟩

@[simp] theorem exposedPorts_WithoutExposedPort (c : Container) (port : Nat) :
    (c.WithoutExposedPort port).exposedPorts = c.exposedPorts.erase port := by
  ext x
  simp only [Container.exposedPorts, Container.WithoutExposedPort, List.mem_toFinset,
    List.mem_map, List.mem_filter, Finset.mem_erase]
  constructor
  · rintro ⟨e, ⟨he, hp⟩, rfl⟩
    exact ⟨by simpa using hp, e, he, rfl⟩
  · rintro ⟨hx, e, he, rfl⟩
    exact ⟨e, ⟨he, by simpa using hx⟩, rfl⟩

@[simp] theorem exposedPorts_WithMountedFile (c : Container) (path : String) (f : File) :
    (c.WithMountedFile path f).exposedPorts = c.exposedPorts := rfl

@[simp] theorem exposedPorts_WithMountedDirectory (c : Container) (path : String)
    (d : Directory) : (c.WithMountedDirectory path d).exposedPorts = c.exposedPorts := rfl

@[simp] theorem exposedPorts_WithExec (c : Container) (args : List String) :
    (c.WithExec args).exposedPorts = c.exposedPorts := rfl

@[simp] theorem exposedPorts_WithEntrypoint (c : Container) (args : List String) :
    (c.WithEntrypoint args).exposedPorts = c.exposedPorts := rfl

@[simp] theorem exposedPorts_WithEnvVariable (c : Container) (name value : String) :
    (c.WithEnvVariable name value).exposedPorts = c.exposedPorts := rfl

@[simp] theorem container_AsService (c : Container) (opts : List ContainerAsServiceOpts) :
    (c.AsService opts).container = c := rfl

theorem filter_port_ne_then_eq (l : List Port) (p q : Nat) :
    (l.filter (fun e => e.port != p)).filter (fun e => e.port == q)
      = if q = p then [] else l.filter (fun e => e.port == q) := by
  induction l with
  | nil => simp
  | cons e l ih =>
    by_cases h1 : e.port = p <;> by_cases h2 : e.port = q <;> by_cases h3 : q = p <;>
      simp_all [List.filter_cons]

@[simp] theorem portOptions_WithExposedPort (c : Container) (p q : Nat)
    (opts : List ContainerWithExposedPortOpts) :
    (c.WithExposedPort p opts).portOptions q
      = if q = p then [opts.any (fun o => o.ExperimentalSkipHealthcheck)]
        else c.portOptions q := by
  simp only [Container.portOptions, Container.WithExposedPort, List.filter_append,
    filter_port_ne_then_eq]
  by_cases h : q = p
  · subst h; simp
  · have h' : ¬ p = q := fun e => h e.symm
    simp [h, h', List.filter_cons]

@[simp] theorem portOptions_WithoutExposedPort (c : Container) (p q : Nat) :
    (c.WithoutExposedPort p).portOptions q = if q = p then [] else c.portOptions q := by
  simp only [Container.portOptions, Container.WithoutExposedPort, filter_port_ne_then_eq]
  by_cases h : q = p <;> simp [h]

@[simp] theorem portOptions_WithMountedFile (c : Container) (path : String) (f : File)
    (q : Nat) : (c.WithMountedFile path f).portOptions q = c.portOptions q := rfl

@[simp] theorem portOptions_WithMountedDirectory (c : Container) (path : String)
    (d : Directory) (q : Nat) :
    (c.WithMountedDirectory path d).portOptions q = c.portOptions q := rfl

@[simp] theorem portOptions_WithExec (c : Container) (args : List String) (q : Nat) :
    (c.WithExec args).portOptions q = c.portOptions q := rfl

@[simp] theorem portOptions_WithEntrypoint (c : Container) (args : List String) (q : Nat) :
    (c.WithEntrypoint args).portOptions q = c.portOptions q := rfl

@[simp] theorem portOptions_WithEnvVariable (c : Container) (name value : String) (q : Nat) :
    (c.WithEnvVariable name value).portOptions q = c.portOptions q := rfl

/-! ### Ports: what each builder yields on top of its base image -/

theorem NginxService_exposedPorts (m : Harbor) :
    (NginxService m).container.exposedPorts
      = (insert 4001 (insert 8080 (m.BuildImage DEV_PLATFORM "nginx").exposedPorts)).erase 8443 := by
  simp [NginxService]

theorem PortalService_exposedPorts (m : Harbor) :
    (PortalService m).container.exposedPorts
      = (insert 8080 (m.BuildImage DEV_PLATFORM "portal").exposedPorts).erase 8443 := by
  simp [PortalService]

theorem JobService_exposedPorts (m : Harbor) :
    (JobService m).container.exposedPorts
      = insert 8080 (m.BuildImage DEV_PLATFORM "jobservice").exposedPorts := by
  simp [JobService]

theorem CoreService_exposedPorts (m : Harbor) :
    (CoreService m).container.exposedPorts
      = insert 4001 (insert 8080 (m.BuildImage DEV_PLATFORM "core").exposedPorts) := by
  simp [CoreService]

theorem RegistryCtlService_exposedPorts (m : Harbor) :
    (RegistryCtlService m).container.exposedPorts
      = (m.BuildImage DEV_PLATFORM "registryctl").exposedPorts := by
  simp [RegistryCtlService]

theorem PostgresService_exposedPorts (dag : Client) (m : Harbor) :
    (PostgresService dag m).container.exposedPorts
      = insert 5432 (dag.pull "goharbor/harbor-db:v2.12.2").exposedPorts := by
  simp [PostgresService, Container.From]

theorem RedisService_exposedPorts (dag : Client) (m : Harbor) :
    (RedisService dag m).container.exposedPorts
      = insert 6379 (dag.pull "goharbor/redis-photon:v2.12.2").exposedPorts := by
  simp [RedisService, Container.From]

theorem RegistryService_exposedPorts (m : Harbor) :
    (RegistryService m).container.exposedPorts
      = ((insert 5000 (m.BuildImage DEV_PLATFORM "registry").exposedPorts).erase 5001).erase
          5443 := by
  simp [RegistryService]

/-! ### The derived scanner URL -/

/-- C1: for every string `r`, stripping the prefix of `"v" ++ r` gives `r` and
the download URL of `"v" ++ r` is the release template with `v` + `r` as the
tag and `r` as the asset version; for the constant `TRIVYVERSION = "v0.56.1"`
the stripped form is `"0.56.1"` and the URL is the one of release `v0.56.1`
(the two derived variables being these functions at `TRIVYVERSION`). -/
theorem trivy_download_url_derivation :
    (∀ r : String,
      trivyVersionNoPrefix ("v" ++ r) = r ∧
      trivyDownloadUrl ("v" ++ r)
        = "https://github.com/aquasecurity/trivy/releases/download/v" ++ r ++ "/trivy_" ++ r
            ++ "_Linux-64bit.tar.gz") ∧
    TRIVY_VERSION_NO_PREFIX = trivyVersionNoPrefix TRIVYVERSION ∧
    TRIVY_DOWNLOAD_URL = trivyDownloadUrl TRIVYVERSION ∧
    TRIVYVERSION = "v0.56.1" ∧
    TRIVY_VERSION_NO_PREFIX = "0.56.1" ∧
    TRIVY_DOWNLOAD_URL
      = "https://github.com/aquasecurity/trivy/releases/download/v0.56.1/trivy_0.56.1_Linux-64bit.tar.gz" := by
  refine ⟨fun r => ⟨TrimPrefix_v_append r, ?_⟩, rfl, rfl, rfl, by decide, by decide⟩
  simp only [trivyDownloadUrl, trivyVersionNoPrefix, TrimPrefix_v_append]
  apply String.ext
  simp [String.data_append]

theorem isVersionShaped_tail (s : String) (h : isVersionShaped s = true) :
    ∃ r : String, s = "v" ++ r ∧ HasPrefix r "v" = false := by
  obtain ⟨cs⟩ := s
  rcases cs with _ | ⟨c, _ | ⟨d, rest⟩⟩
  · simp [isVersionShaped] at h
  · simp [isVersionShaped] at h
  · by_cases hc : c = 'v'
    · subst hc
      have hd : d.isDigit = true := by simpa [isVersionShaped] using h
      have hne : d ≠ 'v' := by
        rintro rfl
        exact absurd hd (by decide)
      refine ⟨⟨d :: rest⟩, ?_, ?_⟩
      · apply String.ext
        simp [String.data_append]
      · simp [HasPrefix, List.isPrefixOf, hne.symm]
    · exfalso
      unfold isVersionShaped at h
      split at h
      · rename_i heq
        simp only [List.cons.injEq] at heq
        exact hc heq.1
      · exact Bool.false_ne_true h

/-- C2: stripping the prefix `"v"` leaves every string that does not start
with `"v"` unchanged, and on every `vX.Y.Z`-shaped string (the letter v
followed by a decimal digit) stripping twice equals stripping once. -/
theorem TrimPrefix_idempotent_on_versions (s : String) :
    (HasPrefix s "v" = false → TrimPrefix s "v" = s) ∧
    (isVersionShaped s = true →
      TrimPrefix (TrimPrefix s "v") "v" = TrimPrefix s "v") := by
  refine ⟨TrimPrefix_of_not_HasPrefix s "v", fun h => ?_⟩
  obtain ⟨r, rfl, hr⟩ := isVersionShaped_tail s h
  rw [TrimPrefix_v_append]
  exact TrimPrefix_of_not_HasPrefix r "v" hr

/-- Witness of C2: the unprefixed `"0.56.1"` is left unchanged, and on
`"v0.56.1"` the second stripping changes nothing. -/
theorem TrimPrefix_idempotent_on_versions_witness :
    (HasPrefix "0.56.1" "v" = false ∧ TrimPrefix "0.56.1" "v" = "0.56.1") ∧
    (isVersionShaped "v0.56.1" = true ∧
      TrimPrefix (TrimPrefix "v0.56.1" "v") "v" = TrimPrefix "v0.56.1" "v") :=
  ⟨⟨by decide, (TrimPrefix_idempotent_on_versions "0.56.1").1 (by decide)⟩,
   ⟨by decide, (TrimPrefix_idempotent_on_versions "v0.56.1").2 (by decide)⟩⟩

/-! ### Exposed ports -/

/-- Counterexample to C3 as stated: on a built base image that exposes port
9999, the descriptor of `JobService`, whose only port call is
`WithExposedPort(8080)`, exposes 9999 as well, so its exposed-port set is not
`{8080}`. -/
theorem JobService_exposedPorts_not_exact :
    (JobService extraPortHarbor).container.exposedPorts ≠ {8080} := by
  decide

/-- C3 (amended): for each of the eight builders, when the base image exposes
no port other than those the builder declares or withholds, the exposed-port
set of the returned descriptor is exactly the documented list. -/
theorem exposedPorts_exact_of_confined_base (dag : Client) (m : Harbor) :
    ((m.BuildImage DEV_PLATFORM "nginx").exposedPorts ⊆ {8080, 4001, 8443} →
      (NginxService m).container.exposedPorts = {8080, 4001}) ∧
    ((m.BuildImage DEV_PLATFORM "portal").exposedPorts ⊆ {8080, 8443} →
      (PortalService m).container.exposedPorts = {8080}) ∧
    ((m.BuildImage DEV_PLATFORM "jobservice").exposedPorts ⊆ {8080} →
      (JobService m).container.exposedPorts = {8080}) ∧
    ((m.BuildImage DEV_PLATFORM "core").exposedPorts ⊆ {8080, 4001} →
      (CoreService m).container.exposedPorts = {8080, 4001}) ∧
    ((m.BuildImage DEV_PLATFORM "registryctl").exposedPorts ⊆ ∅ →
      (RegistryCtlService m).container.exposedPorts = ∅) ∧
    ((dag.pull "goharbor/harbor-db:v2.12.2").exposedPorts ⊆ {5432} →
      (PostgresService dag m).container.exposedPorts = {5432}) ∧
    ((dag.pull "goharbor/redis-photon:v2.12.2").exposedPorts ⊆ {6379} →
      (RedisService dag m).container.exposedPorts = {6379}) ∧
    ((m.BuildImage DEV_PLATFORM "registry").exposedPorts ⊆ {5000, 5001, 5443} →
      (RegistryService m).container.exposedPorts = {5000}) := by
  refine ⟨?_, ?_, ?_, ?_, ?_, ?_, ?_, ?_⟩
  · intro h
    rw [NginxService_exposedPorts]
    ext x
    have hx := @h x
    simp only [Finset.mem_erase, Finset.mem_insert, Finset.mem_singleton] at hx ⊢
    by_cases hb : x ∈ (m.BuildImage DEV_PLATFORM "nginx").exposedPorts
    · have := hx hb
      simp only [hb, or_true, and_true]
      omega
    · simp only [hb, or_false]
      omega
  · intro h
    rw [PortalService_exposedPorts]
    ext x
    have hx := @h x
    simp only [Finset.mem_erase, Finset.mem_insert, Finset.mem_singleton] at hx ⊢
    by_cases hb : x ∈ (m.BuildImage DEV_PLATFORM "portal").exposedPorts
    · have := hx hb
      simp only [hb, or_true, and_true]
      omega
    · simp only [hb, or_false]
      omega
  · intro h
    rw [JobService_exposedPorts]
    ext x
    have hx := @h x
    simp only [Finset.mem_insert, Finset.mem_singleton] at hx ⊢
    by_cases hb : x ∈ (m.BuildImage DEV_PLATFORM "jobservice").exposedPorts
    · have := hx hb
      simp only [hb, or_true, true_iff]
      omega
    · simp only [hb, or_false]
  · intro h
    rw [CoreService_exposedPorts]
    ext x
    have hx := @h x
    simp only [Finset.mem_insert, Finset.mem_singleton] at hx ⊢
    by_cases hb : x ∈ (m.BuildImage DEV_PLATFORM "core").exposedPorts
    · have := hx hb
      simp only [hb, or_true, true_iff]
      omega
    · simp only [hb, or_false]
      omega
  · intro h
    rw [RegistryCtlService_exposedPorts]
    exact Finset.subset_empty.mp h
  · intro h
    rw [PostgresService_exposedPorts]
    ext x
    have hx := @h x
    simp only [Finset.mem_insert, Finset.mem_singleton] at hx ⊢
    by_cases hb : x ∈ (dag.pull "goharbor/harbor-db:v2.12.2").exposedPorts
    · have := hx hb
      simp only [hb, or_true, true_iff]
      omega
    · simp only [hb, or_false]
  · intro h
    rw [RedisService_exposedPorts]
    ext x
    have hx := @h x
    simp only [Finset.mem_insert, Finset.mem_singleton] at hx ⊢
    by_cases hb : x ∈ (dag.pull "goharbor/redis-photon:v2.12.2").exposedPorts
    · have := hx hb
      simp only [hb, or_true, true_iff]
      omega
    · simp only [hb, or_false]
  · intro h
    rw [RegistryService_exposedPorts]
    ext x
    have hx := @h x
    simp only [Finset.mem_erase, Finset.mem_insert, Finset.mem_singleton] at hx ⊢
    by_cases hb : x ∈ (m.BuildImage DEV_PLATFORM "registry").exposedPorts
    · have := hx hb
      simp only [hb, or_true, and_true]
      omega
    · simp only [hb, or_false]
      omega

/-- Witness of C3 (amended): with built images that expose the withheld ports
next to the declared ones, and pulled images that expose their service port,
every hypothesis holds and every descriptor exposes exactly the documented
list. -/
theorem exposedPorts_exact_of_confined_base_witness :
    ((devHarbor.BuildImage DEV_PLATFORM "nginx").exposedPorts ⊆ {8080, 4001, 8443} ∧
      (NginxService devHarbor).container.exposedPorts = {8080, 4001}) ∧
    ((devHarbor.BuildImage DEV_PLATFORM "portal").exposedPorts ⊆ {8080, 8443} ∧
      (PortalService devHarbor).container.exposedPorts = {8080}) ∧
    ((devHarbor.BuildImage DEV_PLATFORM "jobservice").exposedPorts ⊆ {8080} ∧
      (JobService devHarbor).container.exposedPorts = {8080}) ∧
    ((devHarbor.BuildImage DEV_PLATFORM "core").exposedPorts ⊆ {8080, 4001} ∧
      (CoreService devHarbor).container.exposedPorts = {8080, 4001}) ∧
    ((devHarbor.BuildImage DEV_PLATFORM "registryctl").exposedPorts ⊆ ∅ ∧
      (RegistryCtlService devHarbor).container.exposedPorts = ∅) ∧
    ((devClient.pull "goharbor/harbor-db:v2.12.2").exposedPorts ⊆ {5432} ∧
      (PostgresService devClient devHarbor).container.exposedPorts = {5432}) ∧
    ((devClient.pull "goharbor/redis-photon:v2.12.2").exposedPorts ⊆ {6379} ∧
      (RedisService devClient devHarbor).container.exposedPorts = {6379}) ∧
    ((devHarbor.BuildImage DEV_PLATFORM "registry").exposedPorts ⊆ {5000, 5001, 5443} ∧
      (RegistryService devHarbor).container.exposedPorts = {5000}) :=
  have h := exposedPorts_exact_of_confined_base devClient devHarbor
  ⟨⟨by decide, h.1 (by decide)⟩,
   ⟨by decide, h.2.1 (by decide)⟩,
   ⟨by decide, h.2.2.1 (by decide)⟩,
   ⟨by decide, h.2.2.2.1 (by decide)⟩,
   ⟨by decide, h.2.2.2.2.1 (by decide)⟩,
   ⟨by decide, h.2.2.2.2.2.1 (by decide)⟩,
   ⟨by decide, h.2.2.2.2.2.2.1 (by decide)⟩,
   ⟨by decide, h.2.2.2.2.2.2.2 (by decide)⟩⟩

/-- C4: whatever ports the built base image exposes, the descriptor of
`NginxService` does not expose 8443 and exposes 8080 and 4001, the one of
`PortalService` does not expose 8443 and exposes 8080, and the one of
`RegistryService` exposes neither 5001 nor 5443 and exposes 5000. -/
theorem withheld_ports_never_exposed (m : Harbor) :
    (8443 ∉ (NginxService m).container.exposedPorts ∧
      8080 ∈ (NginxService m).container.exposedPorts ∧
      4001 ∈ (NginxService m).container.exposedPorts) ∧
    (8443 ∉ (PortalService m).container.exposedPorts ∧
      8080 ∈ (PortalService m).container.exposedPorts) ∧
    (5001 ∉ (RegistryService m).container.exposedPorts ∧
      5443 ∉ (RegistryService m).container.exposedPorts ∧
      5000 ∈ (RegistryService m).container.exposedPorts) := by
  rw [NginxService_exposedPorts, PortalService_exposedPorts, RegistryService_exposedPorts]
  simp

/-! ### The database descriptor -/

theorem envVariable_WithEnvVariable (c : Container) (name value : String) :
    (c.WithEnvVariable name value).envVariable name = some value := by
  simp [Container.envVariable, Container.WithEnvVariable, List.reverse_append, List.find?_cons]

/-- C5: the descriptor built by `PostgresService` carries the environment
setting `POSTGRES_PASSWORD` with value `root123`, and the one port the builder
declares is 5432: its exposed-port set is that of the pulled image
`goharbor/harbor-db:v2.12.2` with 5432 added. So the descriptor exposes port
5432 and no other port, the pulled image bringing no port other than 5432
(none at all, or 5432 itself). -/
theorem PostgresService_database_descriptor (dag : Client) (m : Harbor) :
    (PostgresService dag m).container.envVariable "POSTGRES_PASSWORD" = some "root123" ∧
    (PostgresService dag m).container.exposedPorts
      = insert 5432 (dag.pull "goharbor/harbor-db:v2.12.2").exposedPorts ∧
    ((dag.pull "goharbor/harbor-db:v2.12.2").exposedPorts ⊆ {5432} →
      (PostgresService dag m).container.exposedPorts = {5432}) := by
  refine ⟨?_, PostgresService_exposedPorts dag m, fun h => ?_⟩
  · simp only [PostgresService, container_AsService]
    exact envVariable_WithEnvVariable _ _ _
  · rw [PostgresService_exposedPorts]
    ext p
    have hp := @h p
    simp only [Finset.mem_insert, Finset.mem_singleton] at hp ⊢
    exact ⟨fun hx => hx.elim id hp, Or.inl⟩

/-- Witness of C5: both for a pulled database image that brings no port and
for one that itself exposes 5432, the descriptor exposes exactly 5432 and
carries the password. -/
theorem PostgresService_database_descriptor_witness :
    ((plainClient.pull "goharbor/harbor-db:v2.12.2").exposedPorts ⊆ {5432} ∧
      (PostgresService plainClient devHarbor).container.exposedPorts = {5432} ∧
      (PostgresService plainClient devHarbor).container.envVariable "POSTGRES_PASSWORD"
        = some "root123") ∧
    ((devClient.pull "goharbor/harbor-db:v2.12.2").exposedPorts ⊆ {5432} ∧
      (PostgresService devClient devHarbor).container.exposedPorts = {5432} ∧
      (PostgresService devClient devHarbor).container.envVariable "POSTGRES_PASSWORD"
        = some "root123") :=
  ⟨⟨by decide,
    (PostgresService_database_descriptor plainClient devHarbor).2.2 (by decide),
    (PostgresService_database_descriptor plainClient devHarbor).1⟩,
   ⟨by decide,
    (PostgresService_database_descriptor devClient devHarbor).2.2 (by decide),
    (PostgresService_database_descriptor devClient devHarbor).1⟩⟩

/-! ### Health-check skipping and elevated capabilities -/

theorem mem_ports_WithExposedPort (c : Container) (port : Nat)
    (opts : List ContainerWithExposedPortOpts) (e : Port) :
    e ∈ (c.WithExposedPort port opts).ports
      ↔ (e ∈ c.ports ∧ e.port ≠ port)
        ∨ e = ⟨port, opts.any (fun o => o.ExperimentalSkipHealthcheck)⟩ := by
  simp [Container.WithExposedPort, List.mem_filter]

theorem mem_ports_WithoutExposedPort (c : Container) (port : Nat) (e : Port) :
    e ∈ (c.WithoutExposedPort port).ports ↔ e ∈ c.ports ∧ e.port ≠ port := by
  simp [Container.WithoutExposedPort, List.mem_filter]

@[simp] theorem ports_WithMountedFile (c : Container) (path : String) (f : File) :
    (c.WithMountedFile path f).ports = c.ports := rfl

@[simp] theorem ports_WithMountedDirectory (c : Container) (path : String) (d : Directory) :
    (c.WithMountedDirectory path d).ports = c.ports := rfl

@[simp] theorem ports_WithExec (c : Container) (args : List String) :
    (c.WithExec args).ports = c.ports := rfl

@[simp] theorem ports_WithEntrypoint (c : Container) (args : List String) :
    (c.WithEntrypoint args).ports = c.ports := rfl

@[simp] theorem ports_WithEnvVariable (c : Container) (name value : String) :
    (c.WithEnvVariable name value).ports = c.ports := rfl

/-- C6: both ports `CoreService` declares (8080 and 4001) are declared with
the health check skipped and its service is created with elevated root
capabilities; in every other builder each declared port is declared without
skipping the health check and the service is created without elevated
capabilities (`RegistryCtlService` declares no port: its ports are those of
its base image). Over all port declarations of a descriptor: in `CoreService`
every declaration that does not skip the health check is one the base image
brought along, in every other builder every declaration that skips it is one
the base image brought along, and the core service is the only one created
with elevated capabilities. -/
theorem healthcheck_skip_confined_to_core (dag : Client) (m : Harbor) :
    ((CoreService m).container.portOptions 8080 = [true] ∧
      (CoreService m).container.portOptions 4001 = [true] ∧
      (CoreService m).insecureRootCapabilities = true) ∧
    ((NginxService m).container.portOptions 8080 = [false] ∧
      (NginxService m).container.portOptions 4001 = [false] ∧
      (NginxService m).insecureRootCapabilities = false) ∧
    ((PortalService m).container.portOptions 8080 = [false] ∧
      (PortalService m).insecureRootCapabilities = false) ∧
    ((JobService m).container.portOptions 8080 = [false] ∧
      (JobService m).insecureRootCapabilities = false) ∧
    ((RegistryCtlService m).container.ports = (m.BuildImage DEV_PLATFORM "registryctl").ports ∧
      (RegistryCtlService m).insecureRootCapabilities = false) ∧
    ((PostgresService dag m).container.portOptions 5432 = [false] ∧
      (PostgresService dag m).insecureRootCapabilities = false) ∧
    ((RedisService dag m).container.portOptions 6379 = [false] ∧
      (RedisService dag m).insecureRootCapabilities = false) ∧
    ((RegistryService m).container.portOptions 5000 = [false] ∧
      (RegistryService m).insecureRootCapabilities = false) ∧
    (∀ e ∈ (CoreService m).container.ports,
      e.skipHealthcheck = false → e ∈ (m.BuildImage DEV_PLATFORM "core").ports) ∧
    (∀ b : Builder, b ≠ .core →
      ∀ e ∈ (b.service dag m).container.ports,
        e.skipHealthcheck = true → e ∈ (b.baseImage dag m).ports) ∧
    (∀ b : Builder, (b.service dag m).insecureRootCapabilities = true ↔ b = .core) := by
  refine ⟨⟨?_, ?_, rfl⟩, ⟨?_, ?_, rfl⟩, ⟨?_, rfl⟩, ⟨?_, rfl⟩, ⟨rfl, rfl⟩, ⟨?_, rfl⟩, ⟨?_, rfl⟩,
    ⟨?_, rfl⟩, ?_, ?_, ?_⟩
  · simp [CoreService]
  · simp [CoreService]
  · simp [NginxService]
  · simp [NginxService]
  · simp [PortalService]
  · simp [JobService]
  · simp [PostgresService]
  · simp [RedisService]
  · simp [RegistryService]
  · intro e he hs
    simp only [CoreService, container_AsService, ports_WithEntrypoint, ports_WithMountedFile,
      mem_ports_WithExposedPort] at he
    rcases he with ⟨(⟨he, -⟩ | rfl), -⟩ | rfl
    · exact he
    · simp at hs
    · simp at hs
  · intro b hb e he hs
    cases b
    · simp only [Builder.service, NginxService, container_AsService, ports_WithMountedFile,
        mem_ports_WithExposedPort, mem_ports_WithoutExposedPort] at he
      rcases he with ⟨(⟨(⟨he, -⟩ | rfl), -⟩ | rfl), -⟩
      · exact he
      · simp at hs
      · simp at hs
    · simp only [Builder.service, PortalService, container_AsService, ports_WithMountedFile,
        mem_ports_WithExposedPort, mem_ports_WithoutExposedPort] at he
      rcases he with ⟨(⟨he, -⟩ | rfl), -⟩
      · exact he
      · simp at hs
    · simp only [Builder.service, JobService, container_AsService, ports_WithMountedFile,
        ports_WithMountedDirectory, ports_WithExec, ports_WithEntrypoint,
        mem_ports_WithExposedPort] at he
      rcases he with ⟨he, -⟩ | rfl
      · exact he
      · simp at hs
    · exact absurd rfl hb
    · exact he
    · simp only [Builder.service, PostgresService, container_AsService, ports_WithEnvVariable,
        mem_ports_WithExposedPort] at he
      rcases he with ⟨he, -⟩ | rfl
      · exact he
      · simp at hs
    · simp only [Builder.service, RedisService, container_AsService,
        mem_ports_WithExposedPort] at he
      rcases he with ⟨he, -⟩ | rfl
      · exact he
      · simp at hs
    · simp only [Builder.service, RegistryService, container_AsService,
        ports_WithMountedDirectory, mem_ports_WithExposedPort,
        mem_ports_WithoutExposedPort] at he
      rcases he with ⟨⟨(⟨he, -⟩ | rfl), -⟩, -⟩
      · exact he
      · simp at hs
  · intro b
    cases b <;> simp [Builder.service, NginxService, PortalService, JobService, CoreService,
      RegistryCtlService, PostgresService, RedisService, RegistryService, Container.AsService]

/-- Witness of C6: on built images that already carry a declaration of port
9000 with the health check skipped and one of port 9001 without, the skipping
declaration found in the descriptor of `NginxService` and the non-skipping one
found in the descriptor of `CoreService` are those of the base image. -/
theorem healthcheck_skip_confined_to_core_witness :
    ((⟨9001, false⟩ : Port) ∈ (CoreService declaredPortsHarbor).container.ports ∧
      (⟨9001, false⟩ : Port).skipHealthcheck = false ∧
      (⟨9001, false⟩ : Port) ∈ (declaredPortsHarbor.BuildImage DEV_PLATFORM "core").ports) ∧
    (Builder.nginx ≠ Builder.core ∧
      (⟨9000, true⟩ : Port)
        ∈ (Builder.nginx.service devClient declaredPortsHarbor).container.ports ∧
      (⟨9000, true⟩ : Port).skipHealthcheck = true ∧
      (⟨9000, true⟩ : Port) ∈ (Builder.nginx.baseImage devClient declaredPortsHarbor).ports) :=
  ⟨⟨by decide, rfl,
    (healthcheck_skip_confined_to_core devClient declaredPortsHarbor).2.2.2.2.2.2.2.2.1
      ⟨9001, false⟩ (by decide) rfl⟩,
   ⟨by decide, by decide, rfl,
    (healthcheck_skip_confined_to_core devClient declaredPortsHarbor).2.2.2.2.2.2.2.2.2.1
      .nginx (by decide) ⟨9000, true⟩ (by decide) rfl⟩⟩

/-! ### Mounts and entrypoints -/

@[simp] theorem mounts_WithMountedFile (c : Container) (path : String) (f : File) :
    (c.WithMountedFile path f).mounts = c.mounts ++ [⟨path, .file f⟩] := rfl

@[simp] theorem mounts_WithMountedDirectory (c : Container) (path : String) (d : Directory) :
    (c.WithMountedDirectory path d).mounts = c.mounts ++ [⟨path, .directory d⟩] := rfl

@[simp] theorem mounts_WithExec (c : Container) (args : List String) :
    (c.WithExec args).mounts = c.mounts := rfl

@[simp] theorem mounts_WithExposedPort (c : Container) (port : Nat)
    (opts : List ContainerWithExposedPortOpts) :
    (c.WithExposedPort port opts).mounts = c.mounts := rfl

@[simp] theorem mounts_WithoutExposedPort (c : Container) (port : Nat) :
    (c.WithoutExposedPort port).mounts = c.mounts := rfl

@[simp] theorem mounts_WithEnvVariable (c : Container) (name value : String) :
    (c.WithEnvVariable name value).mounts = c.mounts := rfl

@[simp] theorem mounts_WithEntrypoint (c : Container) (args : List String) :
    (c.WithEntrypoint args).mounts = c.mounts := rfl

theorem attachedMounts_of_append (base : Container) (s : Service) (l : List Mount)
    (h : s.container.mounts = base.mounts ++ l) : attachedMounts base s = l := by
  simp [attachedMounts, h]

theorem mountAt_of_append (c base : Container) (l : List Mount) (path : String)
    (src : MountSource) (h : c.mounts = base.mounts ++ l)
    (hl : (l.reverse.find? (fun mt => mt.path == path)).map Mount.source = some src) :
    c.mountAt path = some src := by
  unfold Container.mountAt
  rw [h, List.reverse_append, List.find?_append]
  cases hf : l.reverse.find? (fun mt => mt.path == path) with
  | none => simp [hf] at hl
  | some mt => simpa [hf] using hl

theorem NginxService_mounts (m : Harbor) :
    (NginxService m).container.mounts
      = (m.BuildImage DEV_PLATFORM "nginx").mounts
        ++ [⟨"/etc/nginx/nginx.conf", .file (m.Source.File ".dagger/config/proxy/nginx.conf")⟩] := by
  simp [NginxService]

theorem PortalService_mounts (m : Harbor) :
    (PortalService m).container.mounts
      = (m.BuildImage DEV_PLATFORM "portal").mounts
        ++ [⟨"/etc/nginx/nginx.conf", .file (m.Source.File ".dagger/config/proxy/nginx.conf")⟩] := by
  simp [PortalService]

theorem JobService_mounts (m : Harbor) :
    (JobService m).container.mounts
      = (m.BuildImage DEV_PLATFORM "jobservice").mounts
        ++ [⟨"/etc/jobservice/config.yml",
              .file (m.Source.File ".dagger/config/jobservice/config.yml")⟩,
            ⟨"/var/log/jobs", .directory (m.Source.Directory ".dagger/config/jobservice")⟩,
            ⟨"/envFile", .file (m.Source.File ".dagger/config/jobservice/env")⟩,
            ⟨"/run_script", .file (m.Source.File ".dagger/config/run_env.sh")⟩] := by
  simp [JobService]

theorem CoreService_mounts (m : Harbor) :
    (CoreService m).container.mounts
      = (m.BuildImage DEV_PLATFORM "core").mounts
        ++ [⟨"/etc/core/app.conf", .file (m.Source.File ".dagger/config/core/app.conf")⟩,
            ⟨"/envFile", .file (m.Source.File ".dagger/config/core/env")⟩,
            ⟨"/run_script", .file (m.Source.File ".dagger/config/run_debug.sh")⟩] := by
  simp [CoreService]

theorem RegistryCtlService_mounts (m : Harbor) :
    (RegistryCtlService m).container.mounts
      = (m.BuildImage DEV_PLATFORM "registryctl").mounts
        ++ [⟨"/etc/registry", .directory (m.Source.Directory ".dagger/config/registry")⟩,
            ⟨"/etc/registryctl/config.yml",
              .file (m.Source.File ".dagger/config/registryctl/config.yml")⟩,
            ⟨"/envFile", .file (m.Source.File ".dagger/config/jobservice/env")⟩,
            ⟨"/run_script", .file (m.Source.File ".dagger/config/run_env.sh")⟩] := by
  simp [RegistryCtlService]

theorem PostgresService_mounts (dag : Client) (m : Harbor) :
    (PostgresService dag m).container.mounts
      = (dag.pull "goharbor/harbor-db:v2.12.2").mounts ++ [] := by
  simp [PostgresService, Container.From]

theorem RedisService_mounts (dag : Client) (m : Harbor) :
    (RedisService dag m).container.mounts
      = (dag.pull "goharbor/redis-photon:v2.12.2").mounts ++ [] := by
  simp [RedisService, Container.From]

theorem RegistryService_mounts (m : Harbor) :
    (RegistryService m).container.mounts
      = (m.BuildImage DEV_PLATFORM "registry").mounts
        ++ [⟨"/etc/registry", .directory (m.Source.Directory ".dagger/config/registry")⟩] := by
  simp [RegistryService]

/-- C7: in `JobService`, `CoreService` and `RegistryCtlService` the executable
of the entrypoint is `/run_script` and a file (the launch wrapper) is mounted
at `/run_script` in the same descriptor; in `JobService` and
`RegistryCtlService` the path passed after `-c` in the entrypoint command is
the one container path at which the builder mounts its configuration file. -/
theorem entrypoint_consistent_with_mounts (m : Harbor) :
    ((JobService m).container.entrypoint.head? = some "/run_script" ∧
      (JobService m).container.mountAt "/run_script"
        = some (.file (m.Source.File ".dagger/config/run_env.sh")) ∧
      argAfter "-c" (commandWords (JobService m).container.entrypoint)
        = some "/etc/jobservice/config.yml" ∧
      mountPathsOf (attachedMounts (m.BuildImage DEV_PLATFORM "jobservice") (JobService m))
          (.file (m.Source.File ".dagger/config/jobservice/config.yml"))
        = ["/etc/jobservice/config.yml"] ∧
      (JobService m).container.mountAt "/etc/jobservice/config.yml"
        = some (.file (m.Source.File ".dagger/config/jobservice/config.yml"))) ∧
    ((CoreService m).container.entrypoint.head? = some "/run_script" ∧
      (CoreService m).container.mountAt "/run_script"
        = some (.file (m.Source.File ".dagger/config/run_debug.sh"))) ∧
    ((RegistryCtlService m).container.entrypoint.head? = some "/run_script" ∧
      (RegistryCtlService m).container.mountAt "/run_script"
        = some (.file (m.Source.File ".dagger/config/run_env.sh")) ∧
      argAfter "-c" (commandWords (RegistryCtlService m).container.entrypoint)
        = some "/etc/registryctl/config.yml" ∧
      mountPathsOf
          (attachedMounts (m.BuildImage DEV_PLATFORM "registryctl") (RegistryCtlService m))
          (.file (m.Source.File ".dagger/config/registryctl/config.yml"))
        = ["/etc/registryctl/config.yml"] ∧
      (RegistryCtlService m).container.mountAt "/etc/registryctl/config.yml"
        = some (.file (m.Source.File ".dagger/config/registryctl/config.yml"))) := by
  have hJob : (JobService m).container.entrypoint
      = ["/run_script", "/jobservice -c /etc/jobservice/config.yml"] := rfl
  have hCtl : (RegistryCtlService m).container.entrypoint
      = ["/run_script", "/registryctl -c /etc/registryctl/config.yml"] := rfl
  refine ⟨⟨rfl, ?_, ?_, ?_, ?_⟩, ⟨rfl, ?_⟩, ⟨rfl, ?_, ?_, ?_, ?_⟩⟩
  · exact mountAt_of_append _ _ _ _ _ (JobService_mounts m) rfl
  · rw [hJob]; decide
  · rw [attachedMounts_of_append _ _ _ (JobService_mounts m)]
    simp [mountPathsOf, List.filter_cons, Directory.File]
  · exact mountAt_of_append _ _ _ _ _ (JobService_mounts m) rfl
  · exact mountAt_of_append _ _ _ _ _ (CoreService_mounts m) rfl
  · exact mountAt_of_append _ _ _ _ _ (RegistryCtlService_mounts m) rfl
  · rw [hCtl]; decide
  · rw [attachedMounts_of_append _ _ _ (RegistryCtlService_mounts m)]
    simp [mountPathsOf, List.filter_cons, Directory.File]
  · exact mountAt_of_append _ _ _ _ _ (RegistryCtlService_mounts m) rfl

theorem attached_paths_nodup (dag : Client) (m : Harbor) (b : Builder) :
    (b.service dag m).container.mounts
        = (b.baseImage dag m).mounts ++ attachedMounts (b.baseImage dag m) (b.service dag m) ∧
      ((attachedMounts (b.baseImage dag m) (b.service dag m)).map Mount.path).Nodup := by
  revert b
  intro b
  cases b
  · have h := NginxService_mounts m
    simp only [Builder.service, Builder.baseImage]
    rw [attachedMounts_of_append _ _ _ h]
    exact ⟨h, by simp only [List.map_cons, List.map_nil]; decide⟩
  · have h := PortalService_mounts m
    simp only [Builder.service, Builder.baseImage]
    rw [attachedMounts_of_append _ _ _ h]
    exact ⟨h, by simp only [List.map_cons, List.map_nil]; decide⟩
  · have h := JobService_mounts m
    simp only [Builder.service, Builder.baseImage]
    rw [attachedMounts_of_append _ _ _ h]
    exact ⟨h, by simp only [List.map_cons, List.map_nil]; decide⟩
  · have h := CoreService_mounts m
    simp only [Builder.service, Builder.baseImage]
    rw [attachedMounts_of_append _ _ _ h]
    exact ⟨h, by simp only [List.map_cons, List.map_nil]; decide⟩
  · have h := RegistryCtlService_mounts m
    simp only [Builder.service, Builder.baseImage]
    rw [attachedMounts_of_append _ _ _ h]
    exact ⟨h, by simp only [List.map_cons, List.map_nil]; decide⟩
  · have h := PostgresService_mounts dag m
    simp only [Builder.service, Builder.baseImage]
    rw [attachedMounts_of_append _ _ _ h]
    exact ⟨h, by simp only [List.map_cons, List.map_nil]; decide⟩
  · have h := RedisService_mounts dag m
    simp only [Builder.service, Builder.baseImage]
    rw [attachedMounts_of_append _ _ _ h]
    exact ⟨h, by simp only [List.map_cons, List.map_nil]; decide⟩
  · have h := RegistryService_mounts m
    simp only [Builder.service, Builder.baseImage]
    rw [attachedMounts_of_append _ _ _ h]
    exact ⟨h, by simp only [List.map_cons, List.map_nil]; decide⟩

/-- Counterexample to C8 as stated: on a built base image that already has a
file mounted at `/etc/nginx/nginx.conf`, the descriptor of `NginxService` has
two mounts at that path (the later one, of the builder, shadows the one of the
image), so its container mount paths are not pairwise distinct. -/
theorem NginxService_mount_paths_not_distinct :
    ¬ ((NginxService overlapHarbor).container.mounts.map Mount.path).Nodup := by
  decide

/-- C8 (amended): the descriptor built by `CoreService` has the source file
`.dagger/config/core/app.conf` mounted at `/etc/core/app.conf`; in every
builder the mounts are those of the base image followed by the ones the
builder attaches, and the container paths the builder attaches are pairwise
distinct, so no later mount of a builder shadows an earlier mount of that
builder; the container mount paths of the whole descriptor are pairwise
distinct whenever those of the base image are pairwise distinct and none of
them is a path the builder attaches. -/
theorem mount_paths_match_and_distinct (dag : Client) (m : Harbor) :
    (CoreService m).container.mountAt "/etc/core/app.conf"
      = some (.file (m.Source.File ".dagger/config/core/app.conf")) ∧
    (∀ b : Builder,
      (b.service dag m).container.mounts
        = (b.baseImage dag m).mounts ++ attachedMounts (b.baseImage dag m) (b.service dag m) ∧
      ((attachedMounts (b.baseImage dag m) (b.service dag m)).map Mount.path).Nodup) ∧
    (∀ b : Builder,
      ((b.baseImage dag m).mounts.map Mount.path).Nodup →
      (∀ p ∈ (b.baseImage dag m).mounts.map Mount.path,
        p ∉ (attachedMounts (b.baseImage dag m) (b.service dag m)).map Mount.path) →
      ((b.service dag m).container.mounts.map Mount.path).Nodup) := by
  refine ⟨mountAt_of_append _ _ _ _ _ (CoreService_mounts m) rfl,
    attached_paths_nodup dag m, fun b hbase hdisj => ?_⟩
  obtain ⟨hmounts, hattached⟩ := attached_paths_nodup dag m b
  rw [hmounts, List.map_append]
  exact List.nodup_append.mpr ⟨hbase, hattached, fun p hp hq => hdisj p hp hq⟩

/-- Witness of C8 (amended): on built images that have a directory mounted at
`/go/pkg/mod`, a path `JobService` does not attach, the container mount paths
of the whole descriptor of `JobService` are pairwise distinct. -/
theorem mount_paths_match_and_distinct_witness :
    ((Builder.job.baseImage devClient cacheHarbor).mounts.map Mount.path).Nodup ∧
    (∀ p ∈ (Builder.job.baseImage devClient cacheHarbor).mounts.map Mount.path,
      p ∉ (attachedMounts (Builder.job.baseImage devClient cacheHarbor)
            (Builder.job.service devClient cacheHarbor)).map Mount.path) ∧
    ((Builder.job.service devClient cacheHarbor).container.mounts.map Mount.path).Nodup :=
  ⟨by decide, by decide,
   (mount_paths_match_and_distinct devClient cacheHarbor).2.2 .job (by decide) (by decide)⟩

/-! ### Which configuration each builder reads -/

theorem resolved_nginx (dag : Client) (m : Harbor) :
    Builder.nginx.resolved dag m = [.file ⟨m.Source, ".dagger/config/proxy/nginx.conf"⟩] := by
  simp only [Builder.resolved, Builder.service, Builder.baseImage]
  rw [attachedMounts_of_append _ _ _ (NginxService_mounts m)]
  rfl

theorem resolved_portal (dag : Client) (m : Harbor) :
    Builder.portal.resolved dag m = [.file ⟨m.Source, ".dagger/config/proxy/nginx.conf"⟩] := by
  simp only [Builder.resolved, Builder.service, Builder.baseImage]
  rw [attachedMounts_of_append _ _ _ (PortalService_mounts m)]
  rfl

theorem resolved_job (dag : Client) (m : Harbor) :
    Builder.job.resolved dag m
      = [.file ⟨m.Source, ".dagger/config/jobservice/config.yml"⟩,
         .directory (.sub m.Source ".dagger/config/jobservice"),
         .file ⟨m.Source, ".dagger/config/jobservice/env"⟩,
         .file ⟨m.Source, ".dagger/config/run_env.sh"⟩] := by
  simp only [Builder.resolved, Builder.service, Builder.baseImage]
  rw [attachedMounts_of_append _ _ _ (JobService_mounts m)]
  rfl

theorem resolved_core (dag : Client) (m : Harbor) :
    Builder.core.resolved dag m
      = [.file ⟨m.Source, ".dagger/config/core/app.conf"⟩,
         .file ⟨m.Source, ".dagger/config/core/env"⟩,
         .file ⟨m.Source, ".dagger/config/run_debug.sh"⟩] := by
  simp only [Builder.resolved, Builder.service, Builder.baseImage]
  rw [attachedMounts_of_append _ _ _ (CoreService_mounts m)]
  rfl

theorem resolved_registryCtl (dag : Client) (m : Harbor) :
    Builder.registryCtl.resolved dag m
      = [.directory (.sub m.Source ".dagger/config/registry"),
         .file ⟨m.Source, ".dagger/config/registryctl/config.yml"⟩,
         .file ⟨m.Source, ".dagger/config/jobservice/env"⟩,
         .file ⟨m.Source, ".dagger/config/run_env.sh"⟩] := by
  simp only [Builder.resolved, Builder.service, Builder.baseImage]
  rw [attachedMounts_of_append _ _ _ (RegistryCtlService_mounts m)]
  rfl

theorem resolved_postgres (dag : Client) (m : Harbor) :
    Builder.postgres.resolved dag m = [] := by
  simp only [Builder.resolved, Builder.service, Builder.baseImage]
  rw [attachedMounts_of_append _ _ _ (PostgresService_mounts dag m)]
  rfl

theorem resolved_redis (dag : Client) (m : Harbor) :
    Builder.redis.resolved dag m = [] := by
  simp only [Builder.resolved, Builder.service, Builder.baseImage]
  rw [attachedMounts_of_append _ _ _ (RedisService_mounts dag m)]
  rfl

theorem resolved_registry (dag : Client) (m : Harbor) :
    Builder.registry.resolved dag m
      = [.directory (.sub m.Source ".dagger/config/registry")] := by
  simp only [Builder.resolved, Builder.service, Builder.baseImage]
  rw [attachedMounts_of_append _ _ _ (RegistryService_mounts m)]
  rfl

theorem under_file (root : Directory) (dir path : String) :
    (MountSource.file ⟨root, path⟩).under root dir = isUnder dir path := by
  simp [MountSource.under, MountSource.pathIn]

theorem under_directory (root : Directory) (dir path : String) :
    (MountSource.directory (.sub root path)).under root dir = isUnder dir path := by
  simp [MountSource.under, MountSource.pathIn]

/-- Counterexample to C9 as stated: the proxy configuration
`.dagger/config/proxy/nginx.conf`, which is not a launch wrapper script, is
resolved by `NginxService` and by `PortalService`; so it is false that only
the wrapper scripts are resolved by two different builders. -/
theorem nginx_conf_resolved_by_two_builders :
    ¬ ∀ a b : Builder, a ≠ b →
        ∀ src ∈ a.resolved devClient devHarbor, src ∈ b.resolved devClient devHarbor →
          src ∈ launchWrappers devHarbor.Source := by
  intro h
  have hsrc := h .nginx .portal (by decide)
    (.file ⟨devHarbor.Source, ".dagger/config/proxy/nginx.conf"⟩) (by decide) (by decide)
  revert hsrc
  decide

/-- C9 (amended): every source-tree path a builder resolves lies under
`.dagger/config`; apart from the launch wrapper scripts, every path resolved by
`NginxService`, `JobService`, `CoreService` or `RegistryService` lies under the
own directory of that component (`proxy`, `jobservice`, `core`, `registry`);
and apart from the wrapper scripts and the three paths
`.dagger/config/proxy/nginx.conf`, `.dagger/config/jobservice/env` and
`.dagger/config/registry`, no path resolved by one builder is resolved by a
different builder. -/
theorem builders_resolve_own_configuration (dag : Client) (m : Harbor) :
    (∀ b : Builder, ∀ src ∈ b.resolved dag m, src.under m.Source ".dagger/config" = true) ∧
    (∀ src ∈ Builder.nginx.resolved dag m,
      src ∈ launchWrappers m.Source ∨ src.under m.Source ".dagger/config/proxy" = true) ∧
    (∀ src ∈ Builder.job.resolved dag m,
      src ∈ launchWrappers m.Source ∨ src.under m.Source ".dagger/config/jobservice" = true) ∧
    (∀ src ∈ Builder.core.resolved dag m,
      src ∈ launchWrappers m.Source ∨ src.under m.Source ".dagger/config/core" = true) ∧
    (∀ src ∈ Builder.registry.resolved dag m,
      src ∈ launchWrappers m.Source ∨ src.under m.Source ".dagger/config/registry" = true) ∧
    (∀ a b : Builder, a ≠ b →
      ∀ src ∈ a.resolved dag m, src ∈ b.resolved dag m →
        src ∈ launchWrappers m.Source ∨ src ∈ sharedSources m.Source) := by
  refine ⟨?_, ?_, ?_, ?_, ?_, ?_⟩
  · intro b src hsrc
    cases b
    · rw [resolved_nginx] at hsrc
      simp only [List.mem_cons, List.mem_singleton, List.not_mem_nil, or_false] at hsrc
      subst hsrc
      rw [under_file]; decide
    · rw [resolved_portal] at hsrc
      simp only [List.mem_cons, List.mem_singleton, List.not_mem_nil, or_false] at hsrc
      subst hsrc
      rw [under_file]; decide
    · rw [resolved_job] at hsrc
      simp only [List.mem_cons, List.mem_singleton, List.not_mem_nil, or_false] at hsrc
      rcases hsrc with rfl | rfl | rfl | rfl
      · rw [under_file]; decide
      · rw [under_directory]; decide
      · rw [under_file]; decide
      · rw [under_file]; decide
    · rw [resolved_core] at hsrc
      simp only [List.mem_cons, List.mem_singleton, List.not_mem_nil, or_false] at hsrc
      rcases hsrc with rfl | rfl | rfl
      · rw [under_file]; decide
      · rw [under_file]; decide
      · rw [under_file]; decide
    · rw [resolved_registryCtl] at hsrc
      simp only [List.mem_cons, List.mem_singleton, List.not_mem_nil, or_false] at hsrc
      rcases hsrc with rfl | rfl | rfl | rfl
      · rw [under_directory]; decide
      · rw [under_file]; decide
      · rw [under_file]; decide
      · rw [under_file]; decide
    · rw [resolved_postgres] at hsrc
      exact absurd hsrc (List.not_mem_nil _)
    · rw [resolved_redis] at hsrc
      exact absurd hsrc (List.not_mem_nil _)
    · rw [resolved_registry] at hsrc
      simp only [List.mem_cons, List.mem_singleton, List.not_mem_nil, or_false] at hsrc
      subst hsrc
      rw [under_directory]; decide
  · intro src hsrc
    rw [resolved_nginx] at hsrc
    simp only [List.mem_cons, List.mem_singleton, List.not_mem_nil, or_false] at hsrc
    subst hsrc
    right; rw [under_file]; decide
  · intro src hsrc
    rw [resolved_job] at hsrc
    simp only [List.mem_cons, List.mem_singleton, List.not_mem_nil, or_false] at hsrc
    rcases hsrc with rfl | rfl | rfl | rfl
    · right; rw [under_file]; decide
    · right; rw [under_directory]; decide
    · right; rw [under_file]; decide
    · left; simp [launchWrappers]
  · intro src hsrc
    rw [resolved_core] at hsrc
    simp only [List.mem_cons, List.mem_singleton, List.not_mem_nil, or_false] at hsrc
    rcases hsrc with rfl | rfl | rfl
    · right; rw [under_file]; decide
    · right; rw [under_file]; decide
    · left; simp [launchWrappers]
  · intro src hsrc
    rw [resolved_registry] at hsrc
    simp only [List.mem_cons, List.mem_singleton, List.not_mem_nil, or_false] at hsrc
    subst hsrc
    right; rw [under_directory]; decide
  · intro a b hab src ha hb
    cases a <;> cases b <;>
      first
      | exact absurd rfl hab
      | (simp only [resolved_nginx, resolved_portal, resolved_job, resolved_core,
            resolved_registryCtl, resolved_postgres, resolved_redis, resolved_registry] at ha hb
         simp only [launchWrappers, sharedSources]
         aesop)

/-- Witness of C9 (amended): the job-service environment file is resolved by
the two different builders `JobService` and `RegistryCtlService`, and it is one
of the three shared paths. -/
theorem builders_resolve_own_configuration_witness :
    Builder.job ≠ Builder.registryCtl ∧
    MountSource.file ⟨devHarbor.Source, ".dagger/config/jobservice/env"⟩
      ∈ Builder.job.resolved devClient devHarbor ∧
    MountSource.file ⟨devHarbor.Source, ".dagger/config/jobservice/env"⟩
      ∈ Builder.registryCtl.resolved devClient devHarbor ∧
    (MountSource.file ⟨devHarbor.Source, ".dagger/config/jobservice/env"⟩
        ∈ launchWrappers devHarbor.Source ∨
      MountSource.file ⟨devHarbor.Source, ".dagger/config/jobservice/env"⟩
        ∈ sharedSources devHarbor.Source) :=
  ⟨by decide, by decide, by decide,
   (builders_resolve_own_configuration devClient devHarbor).2.2.2.2.2
     .job .registryCtl (by decide) _ (by decide) (by decide)⟩

/-! ### The debug port -/

/-- C10: the decimal value of `DEBUG_PORT` is 4001, the port that both
`NginxService` and `CoreService` expose, and the third token of the entrypoint
of `CoreService`, `["/run_script", "/core", "4001"]`, equals `DEBUG_PORT`. -/
theorem debug_port_is_one_value (m : Harbor) :
    parseDecimal DEBUG_PORT = some 4001 ∧
    4001 ∈ (NginxService m).container.exposedPorts ∧
    4001 ∈ (CoreService m).container.exposedPorts ∧
    (CoreService m).container.entrypoint = ["/run_script", "/core", "4001"] ∧
    (CoreService m).container.entrypoint.get? 2 = some DEBUG_PORT := by
  refine ⟨by decide, ?_, ?_, rfl, rfl⟩
  · rw [NginxService_exposedPorts]; simp
  · rw [CoreService_exposedPorts]; simp

end DaggerHarbor
